import Mathlib

/-!
Verification development for the multi-DEX arbitrage bot: a shallow
embedding of the on-chain contract `MultiDexArbitrageBot.sol` and of the
off-chain orchestrator (`arbitrage-manager.js`) and risk module
(`profit-analyzer.js`), with theorems settling the specified properties.

Conventions: EVM token amounts and block timestamps are `Nat` (the source
uses uint256 and the concrete values stay far below 2^256, so no modular
wraparound is reachable in the modelled code paths); JavaScript
millisecond clock values are `Int` (so that `now - x` keeps JS signed
semantics); JavaScript floating-point ratios are modelled as `ℚ`.
External calls (routers, the lender pool, transaction receipts) are
modelled by explicit environment records describing their observable
behaviour.
-/

namespace ArbBot

/-- Events emitted by the contract (MultiDexArbitrageBot.sol, lines 39-53):
`executed` is ArbitrageExecuted (amountIn, amountOut, profit, timestamp;
the two token addresses are omitted as they play no role in the claims),
`failed` is ArbitrageFailed (reason, timestamp). -/
inductive ArbEvent where
| executed (amountIn amountOut profit timestamp : Nat)
| failed (reason : String) (timestamp : Nat)
deriving DecidableEq, Repr

/-- Result of running one contract call to completion: either the whole
transaction reverts with a reason (no event of the call is observable),
or the call completes and the listed events are emitted. -/
inductive TxResult where
| reverted (reason : String)
| completed (events : List ArbEvent)
deriving DecidableEq, Repr

/-- Environment of one `executeOperation` callback run: the observable
behaviour of the external world during the call. `initialBalance` is the
borrowed asset's balance when the callback starts (line 263),
`simulationProfitable` the result of `simulateArbitrage` (line 267),
`swapsSucceed` the boolean result of `executeSwaps` (line 271), and
`finalBalance` the borrowed asset's balance after the swaps (line 275). -/
structure ExecOpEnv where
  initialBalance : Nat
  simulationProfitable : Bool
  swapsSucceed : Bool
  finalBalance : Nat
  nowTs : Nat
deriving DecidableEq, Repr

/-- The flash-loan callback `executeOperation`
(MultiDexArbitrageBot.sol, lines 244-310), after the caller/initiator
checks: requires the loan received, requires the authoritative
re-simulation to be profitable, runs the swaps, and on success requires
`finalBalance >= amount + premium` and
`profit >= amount * minProfitPercent / 100000` before emitting
ArbitrageExecuted; a failed swap sequence emits ArbitrageFailed. -/
def executeOperation (minProfitPercent amount premium : Nat) (env : ExecOpEnv) : TxResult :=
  if amount ≤ env.initialBalance then
    if env.simulationProfitable then
      if env.swapsSucceed then
        if amount + premium ≤ env.finalBalance then
          let profit := env.finalBalance - (amount + premium)
          if amount * minProfitPercent / 100000 ≤ profit then
            .completed [.executed amount env.finalBalance profit env.nowTs]
          else .reverted "Profit below threshold"
        else .reverted "Insufficient funds to repay"
      else .completed [.failed "Swap execution failed" env.nowTs]
    else .reverted "Simulation shows no profit"
  else .reverted "Insufficient loan received"

/-- C1: for every `executeOperation` run that completes with the success
event (so the loan is repaid out of `finalBalance`), the emitted profit is
the final balance minus (amount borrowed + premium), and it is at least
`amount * minProfitPercent / 100000` — the profit floor, for every
borrowed amount and every configured `minProfitPercent`. -/
theorem executeOperation_profit_floor
    (mpp amount premium : Nat) (env : ExecOpEnv) (aIn aOut p ts : Nat)
    (h : executeOperation mpp amount premium env = .completed [.executed aIn aOut p ts]) :
    p = env.finalBalance - (amount + premium) ∧ amount * mpp / 100000 ≤ p := by
  simp only [executeOperation] at h
  split_ifs at h with h1 h2 h3 h4 h5 <;> simp_all <;> omega

/-- Concrete instantiation of the profit floor: borrow 100000 with
premium 90 at minProfitPercent = 100, final balance 100300; the success
event's profit 210 equals 100300 - 100090 and clears the floor 100. -/
theorem executeOperation_profit_floor_witness :
    210 = 100300 - (100000 + 90) ∧ 100000 * 100 / 100000 ≤ 210 :=
  executeOperation_profit_floor 100 100000 90
    ⟨100000, true, true, 100300, 7⟩ 100000 100300 210 7 (by rfl)

/-- Result of the precondition phase of an execution entry point: either
the call reverts with a reason, or it proceeds to the flash loan / wrap
and swaps. No swap is attempted unless the result is `proceed`. -/
inductive Precheck where
| proceed
| reject (reason : String)
deriving DecidableEq, Repr

/-- The require-sequence of `executeArbitrage`
(MultiDexArbitrageBot.sol, lines 146-174), in source order:
`block.timestamp - route.timestamp < 2 minutes` (checked uint subtraction,
so a future route timestamp reverts with an arithmetic panic), not
paused, distinct tokens, active pair, `block.timestamp <= route.timestamp
+ 5 minutes`, gas-price ceiling. Only after all of these does the flash
loan (and hence any swap) start. Times are in seconds. -/
def executeArbitrageChecks (paused : Bool) (tokenA tokenB : Nat) (pairActive : Bool)
    (routeTs nowTs gasPrice maxGasPrice : Nat) : Precheck :=
  if nowTs < routeTs then .reject "arithmetic underflow panic"
  else if ¬ (nowTs - routeTs < 120) then .reject "Route too old, frontrunning risk"
  else if paused then .reject "Contract is paused"
  else if tokenA = tokenB then .reject "Same tokens"
  else if ¬ pairActive then .reject "Pair not active"
  else if ¬ (nowTs ≤ routeTs + 300) then .reject "Route expired"
  else if ¬ (gasPrice ≤ maxGasPrice) then .reject "Gas price too high"
  else .proceed

/-- The require-sequence of `executeArbitrageWithNative`
(MultiDexArbitrageBot.sol, lines 179-187), in source order: not paused,
nonzero msg.value, active (WETH, tokenB) pair, `block.timestamp <=
route.timestamp + 5 minutes`, gas-price ceiling. -/
def executeArbitrageWithNativeChecks (paused : Bool) (msgValue : Nat) (pairActive : Bool)
    (routeTs nowTs gasPrice maxGasPrice : Nat) : Precheck :=
  if paused then .reject "Contract is paused"
  else if ¬ (0 < msgValue) then .reject "No ETH sent"
  else if ¬ pairActive then .reject "Pair not active"
  else if ¬ (nowTs ≤ routeTs + 300) then .reject "Route expired"
  else if ¬ (gasPrice ≤ maxGasPrice) then .reject "Gas price too high"
  else .proceed

/-- Reasons the contract rejects a route for staleness. -/
def freshnessReason (r : String) : Prop :=
  r = "Route too old, frontrunning risk" ∨ r = "Route expired"

/-- C3 counterexample: a route 200 seconds old is within the 300-second
validity window, yet `executeArbitrage` does not pass it through its
freshness checks — it is rejected by the stricter 2-minute
frontrunning-freshness check, refuting the claim that every route within
the window passes the freshness checks of every entry point. All other
preconditions (not paused, distinct tokens, active pair, gas price 0
under ceiling 100) are satisfied at this input. -/
theorem within_window_route_rejected_by_frontrun_check :
    1000 ≤ 800 + 300 ∧
    executeArbitrageChecks false 1 2 true 800 1000 0 100 =
      .reject "Route too old, frontrunning risk" := by
  constructor
  · decide
  · rfl

/-- C3 (amended): (1) every route at least 120 seconds old — which
includes the whole band [120 s, 300 s] inside the 300-second window as
well as everything older — is rejected by `executeArbitrage` with a
freshness-violation reason before any swap, regardless of pause/pair
state, because the 2-minute check comes first; (2)
`executeArbitrageWithNative` rejects a route older than the 300-second
window with the route-expired reason whenever its earlier checks (not
paused, value sent, active pair) pass; (3) `executeArbitrage` proceeds
when the other preconditions hold and the route is younger than 120
seconds — so with (1), exactly the routes younger than 120 seconds pass
its freshness checks; (4) `executeArbitrageWithNative` passes any route
within the 300-second window when its other preconditions hold. -/
theorem freshness_windows_per_entry_point :
    (∀ (paused : Bool) (tokenA tokenB : Nat) (pairActive : Bool)
        (routeTs nowTs gasPrice maxGasPrice : Nat),
      routeTs ≤ nowTs → 120 ≤ nowTs - routeTs →
      executeArbitrageChecks paused tokenA tokenB pairActive
        routeTs nowTs gasPrice maxGasPrice =
        .reject "Route too old, frontrunning risk") ∧
    (∀ msgValue routeTs nowTs gasPrice maxGasPrice : Nat,
      0 < msgValue → routeTs + 300 < nowTs →
      executeArbitrageWithNativeChecks false msgValue true
        routeTs nowTs gasPrice maxGasPrice = .reject "Route expired") ∧
    (∀ tokenA tokenB routeTs nowTs gasPrice maxGasPrice : Nat,
      routeTs ≤ nowTs → nowTs - routeTs < 120 → tokenA ≠ tokenB →
      gasPrice ≤ maxGasPrice →
      executeArbitrageChecks false tokenA tokenB true
        routeTs nowTs gasPrice maxGasPrice = .proceed) ∧
    (∀ msgValue routeTs nowTs gasPrice maxGasPrice : Nat,
      0 < msgValue → nowTs ≤ routeTs + 300 → gasPrice ≤ maxGasPrice →
      executeArbitrageWithNativeChecks false msgValue true
        routeTs nowTs gasPrice maxGasPrice = .proceed) := by
  refine ⟨?_, ?_, ?_, ?_⟩
  · intro paused tokenA tokenB pairActive routeTs nowTs gasPrice maxGasPrice hle hstale
    unfold executeArbitrageChecks
    split_ifs <;> first | rfl | omega | simp_all
  · intro msgValue routeTs nowTs gasPrice maxGasPrice hv hstale
    unfold executeArbitrageWithNativeChecks
    split_ifs <;> first | rfl | omega | simp_all
  · intro tokenA tokenB routeTs nowTs gasPrice maxGasPrice hle hfresh hne hgas
    unfold executeArbitrageChecks
    split_ifs <;> first | rfl | omega | simp_all
  · intro msgValue routeTs nowTs gasPrice maxGasPrice hv hfresh hgas
    unfold executeArbitrageWithNativeChecks
    split_ifs <;> first | rfl | omega | simp_all

/-- Concrete instantiation of the amended freshness property: a route
400 seconds old (timestamp 600 at time 1000) is rejected as too old by
executeArbitrage, and as expired by executeArbitrageWithNative; a route
200 seconds old — inside the 300-second window but past the 2-minute
bound — is likewise rejected as too old by executeArbitrage; a route
60 seconds old proceeds through executeArbitrage, and a route 250 seconds
old proceeds through executeArbitrageWithNative. -/
theorem freshness_windows_per_entry_point_witness :
    executeArbitrageChecks false 1 2 true 600 1000 5 100 =
      .reject "Route too old, frontrunning risk" ∧
    executeArbitrageChecks false 1 2 true 800 1000 5 100 =
      .reject "Route too old, frontrunning risk" ∧
    executeArbitrageWithNativeChecks false 7 true 600 1000 5 100 =
      .reject "Route expired" ∧
    executeArbitrageChecks false 1 2 true 940 1000 5 100 = .proceed ∧
    executeArbitrageWithNativeChecks false 7 true 750 1000 5 100 = .proceed :=
  ⟨freshness_windows_per_entry_point.1 false 1 2 true 600 1000 5 100
     (by omega) (by omega),
   freshness_windows_per_entry_point.1 false 1 2 true 800 1000 5 100
     (by omega) (by omega),
   freshness_windows_per_entry_point.2.1 7 600 1000 5 100 (by omega) (by omega),
   freshness_windows_per_entry_point.2.2.1 1 2 940 1000 5 100
     (by omega) (by omega) (by omega) (by omega),
   freshness_windows_per_entry_point.2.2.2 7 750 1000 5 100
     (by omega) (by omega) (by omega)⟩

/-- One entry of the orchestrator's `executionHistory`
(arbitrage-manager.js, lines 597-602): appended only in the
`receipt.status === 1` branch of `executeArbitrage`. Timestamps are
JavaScript millisecond clock values. -/
structure ExecutionRecord where
  timestamp : Int
  txHash : String
  profit : ℚ
  routeDescription : String
deriving DecidableEq, Repr

/-- Milliseconds in one hour, as in `Date.now() - (60 * 60 * 1000)`. -/
def hourMs : Int := 3600000

/-- The records of the trailing hour (arbitrage-manager.js, line 542):
`executionHistory.filter(e => e.timestamp > oneHourAgo)`. -/
def recentExecutions (hist : List ExecutionRecord) (now : Int) : List ExecutionRecord :=
  hist.filter (fun e => now - hourMs < e.timestamp)

/-- The rate-limit gate at the top of the orchestrator's
`executeArbitrage` (arbitrage-manager.js, lines 540-548): refuse when the
whole history already has at least `maxPerHour` entries AND at least
`maxPerHour` of them fall within the trailing hour. -/
def rateLimited (hist : List ExecutionRecord) (now : Int) (maxPerHour : Nat) : Bool :=
  decide (maxPerHour ≤ hist.length) &&
    decide (maxPerHour ≤ (recentExecutions hist now).length)

/-- Observable outcome of the submitted transaction: `confirmedSuccess`
is `receipt.status === 1`, `confirmedFailure` any other confirmed status,
and `threw` an exception anywhere in the try block (send failure, or
`tx.wait()` throwing on a reverted transaction). -/
inductive TxOutcome where
| confirmedSuccess
| confirmedFailure
| threw
deriving DecidableEq, Repr

/-- The profitability data of the candidate carried into the execution
call; only the fields the orchestrator copies into an ExecutionRecord are
kept. -/
structure Opportunity where
  estimatedProfitUSD : ℚ
  routeDescription : String
deriving DecidableEq, Repr

/-- The orchestrator's `executeArbitrage` (arbitrage-manager.js, lines
537-617), reduced to its state effect: check the rate limit; if refused
return false with the history unchanged (no transaction is submitted);
otherwise submit and wait. A record is pushed onto `executionHistory`
only in the confirmed-success branch; the confirmed-failure and
exception branches return false without touching the history. Returns
(the boolean result, the updated history). -/
def executeArbitrageOrch (maxPerHour : Nat) (hist : List ExecutionRecord) (now : Int)
    (opp : Opportunity) (txHash : String) (outcome : TxOutcome) :
    Bool × List ExecutionRecord :=
  if rateLimited hist now maxPerHour then (false, hist)
  else
    match outcome with
    | .confirmedSuccess =>
        (true, hist ++ [⟨now, txHash, opp.estimatedProfitUSD, opp.routeDescription⟩])
    | .confirmedFailure => (false, hist)
    | .threw => (false, hist)

/-- C2 counterexample: with `maxExecutionsPerHour = 10` and an empty
history the rate limit does not refuse, so the execution is submitted;
when the transaction confirms with failure status, the history stays
empty — no ExecutionRecord is appended for this submitted execution,
refuting the claim that every submitted execution attempt (success or
failure) appends exactly one record. -/
theorem failed_execution_appends_no_record :
    rateLimited [] 0 10 = false ∧
    (executeArbitrageOrch 10 [] 0 ⟨5, "r"⟩ "0xabc" .confirmedFailure).2 = [] := by
  constructor
  · rfl
  · rfl

/-- C2 (amended): (1) the orchestrator appends a record exactly when the
rate limit does not refuse and the transaction confirms successfully —
one record in that case, none otherwise (in particular, none for a
failed or reverted submission); (2) on-chain, an `executeOperation` call
that completes (does not revert) emits exactly one terminal event, the
success event or the failure event; a reverted call emits none. -/
theorem execution_record_and_event_accounting
    (maxPerHour : Nat) (hist : List ExecutionRecord) (now : Int)
    (opp : Opportunity) (txHash : String) (outcome : TxOutcome)
    (mpp amount premium : Nat) (env : ExecOpEnv) :
    (executeArbitrageOrch maxPerHour hist now opp txHash outcome).2.length =
      hist.length +
        (if rateLimited hist now maxPerHour = false ∧ outcome = .confirmedSuccess
          then 1 else 0) ∧
    (∀ evs, executeOperation mpp amount premium env = .completed evs →
      evs.length = 1) := by
  constructor
  · cases outcome <;> unfold executeArbitrageOrch <;> split_ifs <;> simp_all
  · intro evs hevs
    simp only [executeOperation] at hevs
    split_ifs at hevs <;> (injection hevs with h6 <;> subst h6 <;> rfl)

/-- Concrete instantiation of the record/event accounting: a successful
submission on an empty history appends one record, and a completing
executeOperation run with failed swaps emits exactly the one failure
event. -/
theorem execution_record_and_event_accounting_witness :
    (executeArbitrageOrch 10 [] 0 ⟨5, "r"⟩ "0xabc" .confirmedSuccess).2.length =
      ([] : List ExecutionRecord).length +
        (if rateLimited [] 0 10 = false ∧
            TxOutcome.confirmedSuccess = TxOutcome.confirmedSuccess
          then 1 else 0) ∧
    (∀ evs,
      executeOperation 100 1000 1 ⟨1000, true, false, 0, 3⟩ = .completed evs →
      evs.length = 1) :=
  execution_record_and_event_accounting 10 [] 0 ⟨5, "r"⟩ "0xabc"
    .confirmedSuccess 100 1000 1 ⟨1000, true, false, 0, 3⟩

/-- C5: whenever at least `maxExecutionsPerHour` ExecutionRecords already
fall within the trailing hour, the next execution attempt is refused
before submission — `executeArbitrageOrch` returns false and leaves the
history unchanged, for every candidate opportunity (so regardless of its
profitability) and every possible transaction outcome. -/
theorem rate_limit_refusal
    (maxPerHour : Nat) (hist : List ExecutionRecord) (now : Int)
    (opp : Opportunity) (txHash : String) (outcome : TxOutcome)
    (hN : maxPerHour ≤ (recentExecutions hist now).length) :
    executeArbitrageOrch maxPerHour hist now opp txHash outcome = (false, hist) := by
  have hlen : (recentExecutions hist now).length ≤ hist.length :=
    List.length_filter_le _ _
  have hrl : rateLimited hist now maxPerHour = true := by
    unfold rateLimited
    simp only [Bool.and_eq_true, decide_eq_true_eq]
    exact ⟨le_trans hN hlen, hN⟩
  unfold executeArbitrageOrch
  rw [hrl]
  rfl

/-- Concrete instantiation of the rate limit: with the maximum set to 1
and one record 10 minutes old in the history, a second attempt within
the hour is refused and the history is unchanged, even for a highly
profitable candidate. -/
theorem rate_limit_refusal_witness :
    executeArbitrageOrch 1 [⟨1000000, "0x1", 2, "r1"⟩] 1600000
      ⟨999, "very profitable"⟩ "0x2" .confirmedSuccess =
      (false, [⟨1000000, "0x1", 2, "r1"⟩]) :=
  rate_limit_refusal 1 [⟨1000000, "0x1", 2, "r1"⟩] 1600000
    ⟨999, "very profitable"⟩ "0x2" .confirmedSuccess (by decide)

/-- Per-pair scan state kept in `watchedPairs` (arbitrage-manager.js,
lines 256-263): the `lastChecked` millisecond timestamp and the success
counter (other fields play no role in the claims). -/
structure PairScanState where
  lastChecked : Int
  successCount : Nat
deriving DecidableEq, Repr

/-- Whether the opportunity-check loop scanned the pair or skipped it. -/
inductive ScanAction where
| skipped
| scanned
deriving DecidableEq, Repr

/-- One pair's pass through the body of `checkArbitrageOpportunities`
(arbitrage-manager.js, lines 292-330): skip when less than 5000 ms have
elapsed since `lastChecked` (line 297); otherwise set `lastChecked :=
now` (line 299) and scan. `executed` models the profitability gates
passing and `executeArbitrage` being called, `execSuccess` its boolean
result; only when both hold is the cooldown added (`lastChecked := now +
executionCooldown * 1000`, lines 323-327) and the success counter
bumped. -/
def checkPairStep (cooldownSec : Nat) (st : PairScanState) (now : Int)
    (executed execSuccess : Bool) : ScanAction × PairScanState :=
  if now - st.lastChecked < 5000 then (.skipped, st)
  else if executed && execSuccess then
    (.scanned, ⟨now + (cooldownSec : Int) * 1000, st.successCount + 1⟩)
  else (.scanned, ⟨now, st.successCount⟩)

/-- C8 counterexample: with a configured cooldown of 60 seconds, a pair
whose execution attempt FAILS at time 10000000 ms is re-scanned already
at time 10005000 ms — 5 seconds later, 55 seconds before the cooldown
would have elapsed — refuting the claim that a pair is not re-scanned
for the cooldown interval after an execution attempt whether it succeeds
or fails. -/
theorem failed_execution_skips_cooldown :
    (checkPairStep 60 ⟨9000000, 0⟩ 10000000 true false).1 = .scanned ∧
    (checkPairStep 60
        (checkPairStep 60 ⟨9000000, 0⟩ 10000000 true false).2
        10005000 true true).1 = .scanned ∧
    (10005000 : Int) < 10000000 + 60 * 1000 := by
  refine ⟨rfl, rfl, by decide⟩

/-- C8 (amended): the cooldown is imposed only by a successful
execution. (1) After a scan at time `now` in which the execution attempt
succeeded, with cooldown `c` seconds, every later pass at a time `now'`
earlier than `now + 1000 c + 5000` ms skips the pair — in particular the
pair is not re-scanned before the cooldown has elapsed. (2) After a scan
in which the execution attempt failed, the pair is re-scanned as soon as
the generic 5-second gap has passed, regardless of the cooldown. -/
theorem cooldown_after_success_only
    (c : Nat) (st : PairScanState) (now nowS nowF : Int)
    (e2 s2 e3 s3 : Bool)
    (hscan : 5000 ≤ now - st.lastChecked) :
    (nowS < now + (c : Int) * 1000 + 5000 →
      (checkPairStep c (checkPairStep c st now true true).2 nowS e2 s2).1 =
        .skipped) ∧
    (5000 ≤ nowF - now →
      (checkPairStep c (checkPairStep c st now true false).2 nowF e3 s3).1 =
        .scanned) := by
  have h1 : (checkPairStep c st now true true).2 =
      ⟨now + (c : Int) * 1000, st.successCount + 1⟩ := by
    unfold checkPairStep
    rw [if_neg (by omega)]
    rfl
  have h2 : (checkPairStep c st now true false).2 = ⟨now, st.successCount⟩ := by
    unfold checkPairStep
    rw [if_neg (by omega)]
    rfl
  constructor
  · intro hlt
    rw [h1]
    unfold checkPairStep
    split_ifs <;> simp_all <;> omega
  · intro hge
    rw [h2]
    unfold checkPairStep
    split_ifs <;> simp_all <;> omega

/-- Concrete instantiation of the cooldown property: cooldown 60 s, a
successful execution at t = 10000000 ms blocks a scan at t = 10050000 ms
(50 s later, inside the cooldown), while a failed execution at the same
time lets a scan at t = 10005000 ms proceed. -/
theorem cooldown_after_success_only_witness :
    ((10050000 : Int) < 10000000 + (60 : Nat) * 1000 + 5000 →
      (checkPairStep 60 (checkPairStep 60 ⟨9000000, 0⟩ 10000000 true true).2
        10050000 false false).1 = .skipped) ∧
    ((5000 : Int) ≤ 10005000 - 10000000 →
      (checkPairStep 60 (checkPairStep 60 ⟨9000000, 0⟩ 10000000 true false).2
        10005000 true true).1 = .scanned) :=
  cooldown_after_success_only 60 ⟨9000000, 0⟩ 10000000 10050000 10005000
    false false true true (by decide)

/-- Observable behaviour of the venue chosen for one hop's ordered token
pair: `quote amountIn` is what `router.getAmountsOut` predicts for the
hop, `deliver amountIn` the balance increase the swap actually credits
to the contract. Following the contract's use of
`swapExactTokensForTokens(amountIn, minAmountOut, ...)`, a swap with
floor `minAmountOut` reverts whenever the venue cannot deliver at least
that floor. -/
structure HopVenue where
  quote : Nat → Nat
  deliver : Nat → Nat

/-- Outcome of the swap sequence: `ok` with the final amount when every
swap went through (`executeSwaps` returns true), `failed` when a swap
call reverted and was caught (`executeSwaps` returns false), `reverted`
when a require inside the sequence aborts the whole transaction. -/
inductive SwapsOutcome where
| ok (finalAmount : Nat)
| failed
| reverted (reason : String)
deriving DecidableEq, Repr

/-- The contract's minimum-acceptable-output floor
(MultiDexArbitrageBot.sol, lines 350 and 412):
`amountOut * (10000 - 50) / 10000`, a 0.5% slippage tolerance. -/
def slippageFloor (q : Nat) : Nat := q * (10000 - 50) / 10000

/-- The hop loop of `executeSwaps` (MultiDexArbitrageBot.sol, lines
327-371), with the venue resolved per hop: quote the expected output,
derive the floor, attempt the swap with the floor enforced by the venue
(delivery below the floor makes the router revert, which the `try/catch`
turns into failure of the whole sequence), and require the credited
balance delta to be positive (a violated `require` inside the `try`
success block reverts the transaction). The credited delta becomes the
next hop's input. -/
def runHops (venues : List HopVenue) (amountIn : Nat) : SwapsOutcome :=
  match venues with
  | [] => .ok amountIn
  | v :: rest =>
    let minOut := slippageFloor (v.quote amountIn)
    let d := v.deliver amountIn
    if d < minOut then .failed
    else if d = 0 then .reverted "Zero swap amount"
    else runHops rest d

/-- The venue scan of `findBestDexForSwap` (MultiDexArbitrageBot.sol,
lines 429-456): fold over the active venues keeping the first venue
whose quote strictly exceeds the best output seen so far; an unavailable
pair is a venue quoting 0. `none` models the `require(bestOutput > 0)`
revert when no venue quotes a positive output. -/
def findBestDexForSwap (venues : List HopVenue) (amount : Nat) : Option HopVenue :=
  (venues.foldl
    (fun acc v => if acc.1 < v.quote amount then (v.quote amount, some v) else acc)
    ((0 : Nat), (none : Option HopVenue))).2

/-- The return swap of `swapTokensBack` (MultiDexArbitrageBot.sol, lines
391-424): pick the best-quoting venue, apply the same 0.5% floor, and
swap; the router's revert on under-delivery is caught by the caller's
`try` in `executeSwaps` (line 378), yielding `failed`. The realized
output is again the credited balance delta. -/
def swapTokensBack (venues : List HopVenue) (amount : Nat) : SwapsOutcome :=
  match findBestDexForSwap venues amount with
  | none => .reverted "No valid DEX found"
  | some v =>
    if v.deliver amount < slippageFloor (v.quote amount) then .failed
    else .ok (v.deliver amount)

/-- The whole of `executeSwaps` (MultiDexArbitrageBot.sol, lines
315-386): run the hop loop; for a loop route that is the result, for a
non-loop route a successful hop loop is followed by the best-venue swap
back to the borrowed asset. -/
def executeSwaps (hopVenues : List HopVenue) (isLoop : Bool)
    (backVenues : List HopVenue) (amountIn : Nat) : SwapsOutcome :=
  match runHops hopVenues amountIn with
  | .ok amt => if isLoop then .ok amt else swapTokensBack backVenues amt
  | r => r

/-- Every hop of the sequence delivered at least its venue's quoted
output times (1 - 0.5%), hop inputs chained through the credited
deltas. -/
def hopsRespectFloor : List HopVenue → Nat → Prop
| [], _ => True
| v :: rest, amt =>
    slippageFloor (v.quote amt) ≤ v.deliver amt ∧ hopsRespectFloor rest (v.deliver amt)

/-- C4: (1) whenever `executeSwaps` succeeds, every hop's credited
output is at least the hop venue's quoted expected output times
(1 - 0.5%), and for a non-loop route the final best-venue swap back also
delivered at least its chosen venue's quoted output times (1 - 0.5%);
(2) a hop whose venue delivers under the floor aborts the whole
operation (the swap sequence fails). -/
theorem slippage_floor_enforced :
    (∀ (hopVenues backVenues : List HopVenue) (isLoop : Bool) (amountIn out : Nat),
      executeSwaps hopVenues isLoop backVenues amountIn = .ok out →
      hopsRespectFloor hopVenues amountIn ∧
        (isLoop = false → ∃ v amt, runHops hopVenues amountIn = .ok amt ∧
          findBestDexForSwap backVenues amt = some v ∧
          slippageFloor (v.quote amt) ≤ out ∧ out = v.deliver amt)) ∧
    (∀ (v : HopVenue) (rest : List HopVenue) (amt : Nat),
      v.deliver amt < slippageFloor (v.quote amt) →
      runHops (v :: rest) amt = .failed) := by
  have hrun : ∀ (venues : List HopVenue) (amountIn out : Nat),
      runHops venues amountIn = .ok out → hopsRespectFloor venues amountIn := by
    intro venues
    induction venues with
    | nil => intro amountIn out _; trivial
    | cons v rest ih =>
      intro amountIn out h
      unfold runHops at h
      dsimp only at h
      split_ifs at h with hfl hz
      · exact ⟨le_of_not_lt hfl, ih _ _ h⟩
  constructor
  · intro hopVenues backVenues isLoop amountIn out h
    unfold executeSwaps at h
    cases hr : runHops hopVenues amountIn with
    | ok amt =>
      rw [hr] at h
      refine ⟨hrun _ _ _ hr, ?_⟩
      intro hnl
      subst hnl
      simp only [Bool.false_eq_true, if_false] at h
      unfold swapTokensBack at h
      cases hb : findBestDexForSwap backVenues amt with
      | none => rw [hb] at h; simp at h
      | some v =>
        rw [hb] at h
        dsimp only at h
        split_ifs at h with hlt
        · exact ⟨v, amt, rfl, hb, by cases h; exact le_of_not_lt hlt, by cases h; rfl⟩
    | failed => rw [hr] at h; cases h
    | reverted r => rw [hr] at h; cases h
  · intro v rest amt hlt
    unfold runHops
    rw [if_pos hlt]

/-- Concrete instantiation of the slippage floor with the spec's two
probe venues on a quote of 10000: the venue delivering 9960 (0.4% under
the quote, above the floor 9950) lets the operation succeed and the
floor property follows; the venue delivering 9940 (0.6% under the quote,
below the floor) makes the swap sequence fail. -/
theorem slippage_floor_enforced_witness :
    (hopsRespectFloor [⟨fun _ => 10000, fun _ => 9960⟩] 5000 ∧
      (false = false → ∃ v amt,
        runHops [⟨fun _ => 10000, fun _ => 9960⟩] 5000 = .ok amt ∧
        findBestDexForSwap [⟨fun _ => 10000, fun _ => 9955⟩] amt = some v ∧
        slippageFloor (v.quote amt) ≤ 9955 ∧ 9955 = v.deliver amt)) ∧
    runHops [⟨fun _ => 10000, fun _ => 9940⟩] 5000 = .failed :=
  ⟨slippage_floor_enforced.1 [⟨fun _ => 10000, fun _ => 9960⟩]
      [⟨fun _ => 10000, fun _ => 9955⟩] false 5000 9955 (by rfl),
   slippage_floor_enforced.2 ⟨fun _ => 10000, fun _ => 9940⟩ [] 5000
     (by decide)⟩

/-- One entry of the profit analyzer's `historicalData`
(profit-analyzer.js, lines 67-73): the trade's timestamp and pair label,
the estimated and actual profits, and the derived error ratio. -/
structure ProfitSample where
  timestamp : Int
  pairLabel : String
  estimated : ℚ
  actual : ℚ
  errorRatio : ℚ
deriving DecidableEq, Repr

/-- JavaScript `array.slice(-n)`: the most recent `n` entries (the whole
list when it is shorter). -/
def sliceLast (n : Nat) (l : List α) : List α := l.drop (l.length - n)

/-- Arithmetic mean of a list of ratios, as in
`reduce((sum, t) => sum + t.errorRatio, 0) / recentTrades.length`
(profit-analyzer.js, line 126). -/
def avgError (l : List ℚ) : ℚ := l.sum / (l.length : ℚ)

/-- Population variance of a list of ratios, as in profit-analyzer.js,
lines 129-131; the code then takes `stdDev = Math.sqrt(variance)`. -/
def varianceOf (l : List ℚ) : ℚ :=
  (l.map fun x => (x - avgError l) ^ 2).sum / (l.length : ℚ)

/-- Error ratios of the (up to) 10 most recent samples
(`historicalData.slice(-10)`, profit-analyzer.js, line 125). -/
def errorRatios (hist : List ProfitSample) : List ℚ :=
  (sliceLast 10 hist).map fun s => s.errorRatio

/-- The risk levels reported by `assessRisk`. -/
inductive RiskLevel where
| unknown
| low
| medium
| high
deriving DecidableEq, Repr

/-- Severity ordering on risk levels: low < medium < high (`unknown`
shares the bottom; the monotonicity claim only concerns histories of at
least 5 samples, where `unknown` never occurs). -/
def riskOrd : RiskLevel → Nat
| .unknown => 0
| .low => 0
| .medium => 1
| .high => 2

/-- The analyzer's `assessRisk` (profit-analyzer.js, lines 119-156):
fewer than 5 stored samples give `unknown`; otherwise, over the 10 most
recent samples, mean error above the critical bound 0.3 gives `high`,
else mean error above the tolerance bound 0.1 gives `medium`, else a
standard deviation above 0.2 gives `medium`, else `low`. The code
compares `Math.sqrt(variance) > 0.2`, which for the nonnegative variance
is equivalent to `variance > 1/25`; the embedding uses the variance form
(the equivalence is proved in the claim theorem). -/
def assessRisk (hist : List ProfitSample) : RiskLevel :=
  if hist.length < 5 then .unknown
  else
    let avg := avgError (errorRatios hist)
    let v := varianceOf (errorRatios hist)
    if 3 / 10 < avg then .high
    else if 1 / 10 < avg then .medium
    else if 1 / 25 < v then .medium
    else .low

/-- Modelled from the spec: the risk-level table of §4.4 as a function of
the sample count, the mean error of the most recent samples, and their
variance (squared standard deviation) — `unknown` below 5 samples, then
mean-error thresholds (critical 0.3, tolerance 0.1) taking priority over
the volatility threshold (standard deviation 0.2, i.e. variance 1/25). -/
def specRiskLevel (n : Nat) (mean v : ℚ) : RiskLevel :=
  if n < 5 then .unknown
  else if 3 / 10 < mean then .high
  else if 1 / 10 < mean then .medium
  else if 1 / 25 < v then .medium
  else .low

/-- C6: `assessRisk` computes exactly the specified function of the
recent samples — the spec table applied to the stored sample count, the
mean error ratio of the 10 most recent samples, and their variance —
and the volatility test `stdDev > 0.2` used by the code is equivalent to
the variance test `variance > 1/25` used in the table (for every real
variance value, `1/5 < sqrt v ↔ 1/25 < v`). -/
theorem assessRisk_matches_spec_table (hist : List ProfitSample) (v : ℝ) :
    assessRisk hist =
      specRiskLevel hist.length (avgError (errorRatios hist))
        (varianceOf (errorRatios hist)) ∧
    (1 / 5 < Real.sqrt v ↔ 1 / 25 < v) := by
  constructor
  · unfold assessRisk specRiskLevel
    rfl
  · rw [Real.lt_sqrt (by norm_num)]
    norm_num

/-- C7: for two sample histories of equal size at least 5, with the same
variance of recent error ratios, the history with the larger mean error
is assigned a risk level at least as severe — increasing mean error at
fixed variance never decreases the computed risk level. -/
theorem risk_level_monotone_in_mean (xs ys : List ProfitSample)
    (hlen : xs.length = ys.length) (h5 : 5 ≤ xs.length)
    (hvar : varianceOf (errorRatios xs) = varianceOf (errorRatios ys))
    (hmean : avgError (errorRatios xs) ≤ avgError (errorRatios ys)) :
    riskOrd (assessRisk xs) ≤ riskOrd (assessRisk ys) := by
  have hx5 : ¬ xs.length < 5 := by omega
  have hy5 : ¬ ys.length < 5 := by omega
  unfold assessRisk
  rw [if_neg hx5, if_neg hy5]
  dsimp only
  split_ifs <;> simp only [riskOrd] <;> linarith

/-- Concrete instantiation of risk monotonicity: five accurate samples
(error ratio 0) score `low`, five badly misestimated samples (error
ratio 1) score `high`; both windows have variance 0 and the mean rises
from 0 to 1, and indeed riskOrd low = 0 ≤ 2 = riskOrd high. -/
theorem risk_level_monotone_in_mean_witness :
    riskOrd (assessRisk (List.replicate 5 ⟨0, "p", 10, 10, 0⟩)) ≤
      riskOrd (assessRisk (List.replicate 5 ⟨0, "p", 10, 20, 1⟩)) :=
  risk_level_monotone_in_mean
    (List.replicate 5 ⟨0, "p", 10, 10, 0⟩)
    (List.replicate 5 ⟨0, "p", 10, 20, 1⟩)
    (by rfl) (by decide)
    (by norm_num [varianceOf, avgError, errorRatios, sliceLast, List.replicate])
    (by norm_num [avgError, errorRatios, sliceLast, List.replicate])

/-- Input of `analyzeEstimationAccuracy` (profit-analyzer.js, line 57):
the destructured `tradeData` fields; a numeric field is `none` when
absent. -/
structure TradeData where
  estimated : Option ℚ
  actual : Option ℚ
  pairLabel : String
  timestamp : Int
deriving DecidableEq, Repr

/-- JavaScript falsiness of an optional numeric field: missing
(`undefined`) or equal to 0 — both make `!estimated` / `!actual` true. -/
def falsyNum : Option ℚ → Bool
| none => true
| some x => decide (x = 0)

/-- The analysis object returned by `analyzeEstimationAccuracy`; fields
absent from a branch's object literal are `none`. -/
structure AccuracyResult where
  accurate : Bool
  critical : Option Bool
  errorRatio : Option ℚ
  errMsg : Option String
deriving DecidableEq, Repr

/-- The analyzer's `analyzeEstimationAccuracy` (profit-analyzer.js,
lines 56-90) as a function of the stored history: when either numeric
field is falsy it returns `{accurate: false, error: 'Missing data'}` at
once, before the push — the history is untouched; otherwise it computes
`errorRatio = |estimated - actual| / estimated`, appends the sample,
trims the history to the most recent 100 entries when it exceeds 100,
and reports accuracy against the 10% tolerance and 30% critical
thresholds. Returns (the result, the updated history). -/
def analyzeEstimationAccuracy (hist : List ProfitSample) (td : TradeData) :
    AccuracyResult × List ProfitSample :=
  if falsyNum td.estimated || falsyNum td.actual then
    (⟨false, none, none, some "Missing data"⟩, hist)
  else
    let e := td.estimated.getD 0
    let a := td.actual.getD 0
    let r := |e - a| / e
    let hist1 := hist ++ [⟨td.timestamp, td.pairLabel, e, a, r⟩]
    let hist2 := if 100 < hist1.length then sliceLast 100 hist1 else hist1
    (⟨decide (r ≤ 1 / 10), some (decide (3 / 10 < r)), some r, none⟩, hist2)

/-- C10: whenever the estimated field or the actual field is 0 or
missing, `analyzeEstimationAccuracy` reports `accurate = false` with the
'Missing data' error, and the stored history is returned unchanged — no
sample is appended, so a trade with realized profit exactly 0 is never
recorded as a 100% estimation error sample. -/
theorem missing_data_leaves_history_unchanged
    (hist : List ProfitSample) (td : TradeData)
    (h : td.estimated = none ∨ td.estimated = some 0 ∨
      td.actual = none ∨ td.actual = some 0) :
    (analyzeEstimationAccuracy hist td).1.accurate = false ∧
    (analyzeEstimationAccuracy hist td).1.errMsg = some "Missing data" ∧
    (analyzeEstimationAccuracy hist td).2 = hist := by
  have hf : (falsyNum td.estimated || falsyNum td.actual) = true := by
    rcases h with h | h | h | h <;> simp [h, falsyNum]
  unfold analyzeEstimationAccuracy
  rw [if_pos hf]
  exact ⟨rfl, rfl, rfl⟩

/-- Concrete instantiation of the missing-data guard: a trade whose
realized profit is exactly 0 (estimated 5, actual 0) on a one-sample
history leaves the result inaccurate with the 'Missing data' error and
the history as it was. -/
theorem missing_data_leaves_history_unchanged_witness :
    (analyzeEstimationAccuracy [⟨1, "p", 4, 4, 0⟩]
        ⟨some 5, some 0, "p", 2⟩).1.accurate = false ∧
    (analyzeEstimationAccuracy [⟨1, "p", 4, 4, 0⟩]
        ⟨some 5, some 0, "p", 2⟩).1.errMsg = some "Missing data" ∧
    (analyzeEstimationAccuracy [⟨1, "p", 4, 4, 0⟩]
        ⟨some 5, some 0, "p", 2⟩).2 = [⟨1, "p", 4, 4, 0⟩] :=
  missing_data_leaves_history_unchanged [⟨1, "p", 4, 4, 0⟩]
    ⟨some 5, some 0, "p", 2⟩ (Or.inr (Or.inr (Or.inr rfl)))

/-- The inner j-loop of the 3-hop route enumeration as written in the
source (arbitrage-manager.js, line 437:
`for (let j = 0; i < CONFIG.dexes.length; j++)`): the exit condition
tests `i`, the outer loop's index, instead of the loop's own counter
`j` (the k-loop on line 438 has the same defect). `jLoopSteps i n fuel
j` runs this loop for at most `fuel` iterations starting from counter
value `j` with `n = CONFIG.dexes.length`, returning the counter at exit
when the loop exits within `fuel` iterations, and `none` otherwise. -/
def jLoopSteps (i n : Nat) : Nat → Nat → Option Nat
| 0, _ => none
| fuel + 1, j => if i < n then jLoopSteps i n fuel (j + 1) else some j

/-- C9 (code bug): whenever the 3-hop branch is entered at all (the
outer index satisfies `i < n` with `n` the number of configured venues),
the inner loop's exit condition never becomes false, so the loop does
not terminate within any number of iterations — the enumeration never
finishes, contradicting the claimed |dexes|³ bound. -/
theorem three_hop_inner_loop_guard_stuck (i n : Nat) (h : i < n) :
    ∀ fuel j, jLoopSteps i n fuel j = none := by
  intro fuel
  induction fuel with
  | zero => intro j; rfl
  | succ f ih =>
    intro j
    unfold jLoopSteps
    rw [if_pos h]
    exact ih (j + 1)

/-- Concrete instantiation of the stuck loop: with a single configured
venue (i = 0, n = 1) the inner loop has not exited after 1000
iterations. -/
theorem three_hop_inner_loop_guard_stuck_witness :
    jLoopSteps 0 1 1000 0 = none :=
  three_hop_inner_loop_guard_stuck 0 1 (by decide) 1000 0

end ArbBot
